import Mathlib

/-!
Shallow embedding of the ytdlp-service Flask application (src/app.py) and a
verification of its acquisition / notification behaviour.

The embedding models the `download` request handler (src/app.py, `download`)
and the callback sender (`send_callback`).  External effects — the yt-dlp
extraction call, the Supabase storage upload, the public-URL lookup and the
outbound HTTP POST of a callback — are modelled as an environment record
whose fields give the outcome of each effect.  The handler is then a pure
function from configuration, parsed request body and environment to a result
record that captures the HTTP response status together with the observable
event trace: every outbound callback call (with its payload and timeout),
every storage upload, the number of extraction attempts, and the lifecycle
of the per-job temporary directory.
-/

namespace YtdlpService

/-- Python `dict.get(key, default)` where the stored value may itself be the
Python `None`:  `none` means the key is absent (the default is returned),
`some v` means the key is present with value `v : Option α`
(`some none` is a key explicitly set to `None`). -/
def pyGetD {α : Type} (field : Option (Option α)) (dflt : α) : Option α :=
  match field with
  | none => some dflt
  | some v => v

/-- Python string slicing `s[:n]`: the first `n` characters of `s`. -/
def pyTake (s : String) (n : Nat) : String := ⟨s.data.take n⟩

/-- Python `str.startswith`. -/
def pyStartsWith (f p : String) : Bool := p.data.isPrefixOf f.data

/-- Python truthiness of an optional string: `None` and `""` are falsy. -/
def truthy (s : Option String) : Bool :=
  match s with
  | none => false
  | some t => t != ""

/-- Python `f.split(".")[-1]`: the part of `f` after the last dot, or all of
`f` when it has no dot (src/app.py line 137). -/
def lastExt (f : String) : String :=
  ⟨(f.data.reverse.takeWhile (fun c => c != '.')).reverse⟩

/-- Metadata dictionary returned by `ydl.extract_info` (src/app.py lines
119-123).  Each field distinguishes key-absent (`none`) from key-present
with Python `None` (`some none`) from a real value (`some (some v)`). -/
structure Info where
  title : Option (Option String)
  duration : Option (Option Nat)
  thumbnail : Option (Option String)
deriving Repr, DecidableEq

/-- Outcome of the yt-dlp extraction call: either metadata together with the
list of file names present in the temporary directory afterwards, or a
raised exception with its message. -/
inductive ExtractOutcome where
  | ok (info : Info) (files : List String)
  | raise (msg : String)
deriving Repr, DecidableEq

/-- Outcome of the Supabase storage upload call. -/
inductive UploadOutcome where
  | ok
  | raise (msg : String)
deriving Repr, DecidableEq

/-- JSON payload of a callback (src/app.py lines 79-83, 165-175, 196-201).
Fields that a given payload does not carry are `none`. -/
structure Payload where
  asset_id : String
  status : String
  secret : Option String
  asset_url : Option String := none
  title : Option String := none
  duration : Option Nat := none
  error_message : Option String := none
  thumbnail_url : Option String := none
deriving Repr, DecidableEq

/-- One outbound `requests.post(callback_url, json=payload, timeout=30)`
call (src/app.py line 22). -/
structure CallbackCall where
  url : String
  payload : Payload
  timeout : Nat
deriving Repr, DecidableEq

/-- Outcome of an outbound HTTP POST: a response with a status code, or a
raised exception. -/
inductive PostResult where
  | resp (status : Nat)
  | exc (msg : String)
deriving Repr, DecidableEq

/-- src/app.py `send_callback`: performs one POST with timeout 30, returns
`status == 200`, and maps any raised exception to `False` (the bare
`except` on line 25).  The result is the boolean together with the list of
outbound calls made (always exactly one). -/
def send_callback (post : CallbackCall → PostResult) (callback_url : String)
    (payload : Payload) : Bool × List CallbackCall :=
  let call : CallbackCall := ⟨callback_url, payload, 30⟩
  match post call with
  | .resp status => (status == 200, [call])
  | .exc _ => (false, [call])

/-- Per-media-type configuration chosen on src/app.py lines 90-114 together
with the top-level content type of line 156: `expected_ext` and `bucket`
from the branch, `ctypeTop` is `'audio' if media_type == 'audio' else
'video'`. -/
structure MediaParams where
  expected_ext : String
  bucket : String
  ctypeTop : String
deriving Repr, DecidableEq

/-- Branch on `media_type == 'audio'` (src/app.py lines 90, 105, 156);
`media_type` is the Python value of `data.get('type', 'audio')`, which may
be `None`. -/
def mediaParams (media_type : Option String) : MediaParams :=
  if media_type = some "audio" then ⟨"mp3", "audio-files", "audio"⟩
  else ⟨"mp4", "media-assets", "video"⟩

/-- src/app.py lines 128-141: resolve the downloaded file.  First try the
exact name `asset_id.expected_ext`; else scan the directory listing for the
first name starting with `asset_id` (taking its extension from the name);
else the file is not found (`none`), which the handler turns into a raised
exception.  Returns the chosen file name and the (possibly updated)
extension. -/
def locate (files : List String) (asset_id expected_ext : String) :
    Option (String × String) :=
  let exact := asset_id ++ "." ++ expected_ext
  if files.contains exact then some (exact, expected_ext)
  else
    match files.find? (fun f => pyStartsWith f asset_id) with
    | some f => some (f, lastExt f)
    | none => none

/-- Payload of the interim "downloading" callback (src/app.py lines 79-83). -/
def downloadingPayload (asset_id : String) (secret : Option String) : Payload :=
  { asset_id := asset_id, status := "downloading", secret := secret }

/-- Payload of the terminal failure callback (src/app.py lines 196-201);
the message is `str(e)[:500]` (line 190). -/
def failPayload (asset_id msg : String) (secret : Option String) : Payload :=
  { asset_id := asset_id, status := "failed", secret := secret,
    error_message := some (pyTake msg 500) }

/-- Payload of the terminal success callback (src/app.py lines 165-175):
`title = info.get('title', 'Unknown')` then `title[:255] if title else
None`; `duration = info.get('duration', 0)` then `min(duration, 86400) if
duration else None`; `thumbnail = info.get('thumbnail', None)` added only
when truthy. -/
def readyPayload (asset_id public_url : String) (info : Info)
    (secret : Option String) : Payload :=
  let title := pyGetD info.title "Unknown"
  let duration := pyGetD info.duration 0
  let thumbnail : Option String :=
    match info.thumbnail with
    | none => none
    | some v => v
  { asset_id := asset_id, status := "ready", secret := secret,
    asset_url := some public_url,
    title :=
      match title with
      | some s => if s = "" then none else some (pyTake s 255)
      | none => none,
    duration :=
      match duration with
      | some d => if d = 0 then none else some (min d 86400)
      | none => none,
    thumbnail_url :=
      match thumbnail with
      | some t => if t = "" then none else some t
      | none => none }

/-- Process-level configuration (src/app.py lines 12-15): the `API_SECRET`
environment variable (absent gives Python `None`) and whether the Supabase
client was constructed. -/
structure Config where
  api_secret : Option String
  supabase_configured : Bool
deriving Repr, DecidableEq

/-- Parsed JSON body of a /download request (src/app.py lines 54-65).  Each
field is what `data.get(...)` returns; for `type` the key-absent case is
distinguished because `data.get('type', 'audio')` has a default. -/
structure Req where
  url : Option String
  type_ : Option (Option String)
  asset_id : Option String
  artist_id : Option String
  secret : Option String
  callback_url : Option String
deriving Repr, DecidableEq

/-- One `supabase.storage.from_(bucket).upload(storage_path, data,
file_options)` call (src/app.py lines 153-157). -/
structure UploadCall where
  bucket : String
  key : String
  contentType : String
deriving Repr, DecidableEq

/-- Environment of one request: the temporary directory path chosen by
`tempfile.TemporaryDirectory()`, the outcome of the extraction attempt, the
outcome of the storage upload, the storage backend's public-URL map, and
the network behaviour seen by `requests.post`. -/
structure Env where
  tempDir : String
  extract : ExtractOutcome
  upload : UploadOutcome
  publicUrl : String → String
  post : CallbackCall → PostResult

/-- Observable result of one /download request: the HTTP status of the
synchronous response, the outbound callback calls in order, the number of
`ydl.extract_info` invocations, the storage uploads performed, and whether
the per-job temporary directory was created / released. -/
structure DownloadResult where
  httpStatus : Nat
  callbacks : List CallbackCall
  extractAttempts : Nat
  uploads : List UploadCall
  tempDirCreated : Bool
  tempDirReleased : Bool
deriving Repr, DecidableEq

/-- Result of a request rejected before any side effect. -/
def noEffect (code : Nat) : DownloadResult :=
  { httpStatus := code, callbacks := [], extractAttempts := 0, uploads := [],
    tempDirCreated := false, tempDirReleased := false }

/-- Body of the /download handler after validation (src/app.py lines
76-187 and the `except` handler on lines 189-203).  The `with
tempfile.TemporaryDirectory()` block guarantees the temporary directory is
released on every exit path, so every branch that creates it also releases
it; any exception raised inside the `try` block (extraction failure,
file-not-found, upload failure) reaches the `except` handler, which sends
the failure callback (`callback_url` and `asset_id` are truthy on every
reachable raise path, so the guard on line 195 passes) and returns 500. -/
def process (cfg : Config) (req : Req) (env : Env) : DownloadResult :=
    let cb := req.callback_url.getD ""
    let aid := req.asset_id.getD ""
    let artist := req.artist_id.getD ""
    let media_type := pyGetD req.type_ "audio"
    let params := mediaParams media_type
    let c1 := (send_callback env.post cb (downloadingPayload aid cfg.api_secret)).2
    match env.extract with
    | .raise msg =>
        { httpStatus := 500,
          callbacks := c1 ++ (send_callback env.post cb (failPayload aid msg cfg.api_secret)).2,
          extractAttempts := 1, uploads := [],
          tempDirCreated := true, tempDirReleased := true }
    | .ok info files =>
      match locate files aid params.expected_ext with
      | none =>
          { httpStatus := 500,
            callbacks := c1 ++ (send_callback env.post cb
              (failPayload aid ("Downloaded file not found in " ++ env.tempDir)
                cfg.api_secret)).2,
            extractAttempts := 1, uploads := [],
            tempDirCreated := true, tempDirReleased := true }
      | some (_file, ext) =>
          let key := artist ++ "/" ++ aid ++ "." ++ ext
          let up : UploadCall := ⟨params.bucket, key, params.ctypeTop ++ "/" ++ ext⟩
          match env.upload with
          | .raise msg =>
              { httpStatus := 500,
                callbacks := c1 ++ (send_callback env.post cb
                  (failPayload aid msg cfg.api_secret)).2,
                extractAttempts := 1, uploads := [up],
                tempDirCreated := true, tempDirReleased := true }
          | .ok =>
              { httpStatus := 200,
                callbacks := c1 ++ (send_callback env.post cb
                  (readyPayload aid (env.publicUrl key) info cfg.api_secret)).2,
                extractAttempts := 1, uploads := [up],
                tempDirCreated := true, tempDirReleased := true }

/-- src/app.py `download` (lines 39-203).  Validation happens in source
order: secret (401, line 60), then url/asset_id/artist_id (400, line 67),
then callback_url (400, line 70), then Supabase configuration (500, line
73) — all before the "downloading" callback and any other side effect. -/
def download (cfg : Config) (req : Req) (env : Env) : DownloadResult :=
  if req.secret ≠ cfg.api_secret then noEffect 401
  else if !(truthy req.url && truthy req.asset_id && truthy req.artist_id) then
    noEffect 400
  else if !truthy req.callback_url then noEffect 400
  else if !cfg.supabase_configured then noEffect 500
  else process cfg req env

/-- A request that passes every validation check of the handler and reaches
the processing stage. -/
def accepted (cfg : Config) (req : Req) : Prop :=
  req.secret = cfg.api_secret ∧ truthy req.url = true ∧
  truthy req.asset_id = true ∧ truthy req.artist_id = true ∧
  truthy req.callback_url = true ∧ cfg.supabase_configured = true

instance (cfg : Config) (req : Req) : Decidable (accepted cfg req) := by
  unfold accepted; infer_instance

/-- A terminal notification is a callback whose status is "ready" or
"failed". -/
def isTerminal (p : Payload) : Bool :=
  p.status == "ready" || p.status == "failed"

/-- Sample process configuration used in concrete runs. -/
def cfgW : Config := ⟨some "s", true⟩

/-- Sample well-formed audio request. -/
def reqW : Req :=
  { url := some "https://youtube.com/watch?v=a", type_ := some (some "audio"),
    asset_id := some "aid", artist_id := some "art", secret := some "s",
    callback_url := some "https://cb.example/fn" }

/-- Sample request with the url field missing. -/
def reqMissingUrl : Req := { reqW with url := none }

/-- Sample metadata with a title and duration present. -/
def infoW : Info := ⟨some (some "Song A"), some (some 180), none⟩

/-- Sample metadata whose dictionary lacks the title key entirely. -/
def infoNoTitle : Info := ⟨none, some (some 200), none⟩

/-- Environment of a fully successful run whose extraction writes the
exactly-named output file. -/
def envW : Env :=
  { tempDir := "/tmp/t", extract := .ok infoW ["aid.mp3"], upload := .ok,
    publicUrl := fun k => "https://pub/" ++ k, post := fun _ => .resp 200 }

/-- Environment of a successful run whose extraction renamed its output to
an m4a container instead of the expected mp3. -/
def envRenamed : Env := { envW with extract := .ok infoW ["aid.m4a"] }

/-- Environment whose extraction attempt raises a transiently-classified
rate-limit error. -/
def envTransient : Env :=
  { envW with extract := .raise "HTTP Error 429: Too Many Requests" }

/-- Environment of a successful run whose metadata lacks the title key. -/
def envNoTitle : Env := { envW with extract := .ok infoNoTitle ["aid.mp3"] }

/-- The failure callback produced by `envTransient` under `reqW`. -/
def cFailW : CallbackCall :=
  ⟨"https://cb.example/fn",
   failPayload "aid" "HTTP Error 429: Too Many Requests" (some "s"), 30⟩

/- ===================  helper lemmas  =================== -/

theorem send_callback_calls (post : CallbackCall → PostResult) (u : String)
    (p : Payload) : (send_callback post u p).2 = [⟨u, p, 30⟩] := by
  simp only [send_callback]
  cases hp : post ⟨u, p, 30⟩ <;> simp [hp]

theorem pyTake_length (s : String) (n : Nat) : (pyTake s n).length ≤ n := by
  show (s.data.take n).length ≤ n
  rw [List.length_take]
  omega

theorem download_eq_process (cfg : Config) (req : Req) (env : Env)
    (h : accepted cfg req) : download cfg req env = process cfg req env := by
  obtain ⟨h1, h2, h3, h4, h5, h6⟩ := h
  simp [download, h1, h2, h3, h4, h5, h6]

theorem download_not_accepted (cfg : Config) (req : Req) (env : Env)
    (h : ¬ accepted cfg req) : ∃ code, download cfg req env = noEffect code := by
  by_cases h1 : req.secret = cfg.api_secret
  · cases h2 : truthy req.url with
    | false => exact ⟨400, by simp [download, h1, h2]⟩
    | true =>
      cases h3 : truthy req.asset_id with
      | false => exact ⟨400, by simp [download, h1, h2, h3]⟩
      | true =>
        cases h4 : truthy req.artist_id with
        | false => exact ⟨400, by simp [download, h1, h2, h3, h4]⟩
        | true =>
          cases h5 : truthy req.callback_url with
          | false => exact ⟨400, by simp [download, h1, h2, h3, h4, h5]⟩
          | true =>
            cases h6 : cfg.supabase_configured with
            | false => exact ⟨500, by simp [download, h1, h2, h3, h4, h5, h6]⟩
            | true => exact absurd ⟨h1, h2, h3, h4, h5, h6⟩ h
  · exact ⟨401, by simp [download, h1]⟩

theorem process_trace (cfg : Config) (req : Req) (env : Env) :
    ∃ p : Payload,
      (process cfg req env).callbacks =
        [⟨req.callback_url.getD "",
          downloadingPayload (req.asset_id.getD "") cfg.api_secret, 30⟩,
         ⟨req.callback_url.getD "", p, 30⟩] ∧
      (process cfg req env).extractAttempts = 1 ∧
      ((∃ msg, p = failPayload (req.asset_id.getD "") msg cfg.api_secret ∧
          (process cfg req env).httpStatus = 500) ∨
       (∃ u info files, env.extract = .ok info files ∧
          p = readyPayload (req.asset_id.getD "") u info cfg.api_secret ∧
          (process cfg req env).httpStatus = 200)) := by
  rcases hx : env.extract with ⟨info, files⟩ | msg
  · rcases hl : locate files (req.asset_id.getD "")
        (mediaParams (pyGetD req.type_ "audio")).expected_ext with _ | ⟨f, e⟩
    · exact ⟨failPayload (req.asset_id.getD "")
          ("Downloaded file not found in " ++ env.tempDir) cfg.api_secret,
        by simp [process, hx, hl, send_callback_calls],
        by simp [process, hx, hl],
        Or.inl ⟨_, rfl, by simp [process, hx, hl]⟩⟩
    · rcases hu : env.upload with _ | msg
      · exact ⟨readyPayload (req.asset_id.getD "")
            (env.publicUrl (req.artist_id.getD "" ++ "/" ++
              req.asset_id.getD "" ++ "." ++ e)) info cfg.api_secret,
          by simp [process, hx, hl, hu, send_callback_calls],
          by simp [process, hx, hl, hu],
          Or.inr ⟨_, info, files, rfl, rfl, by simp [process, hx, hl, hu]⟩⟩
      · exact ⟨failPayload (req.asset_id.getD "") msg cfg.api_secret,
          by simp [process, hx, hl, hu, send_callback_calls],
          by simp [process, hx, hl, hu],
          Or.inl ⟨msg, rfl, by simp [process, hx, hl, hu]⟩⟩
  · exact ⟨failPayload (req.asset_id.getD "") msg cfg.api_secret,
      by simp [process, hx, send_callback_calls],
      by simp [process, hx],
      Or.inl ⟨msg, rfl, by simp [process, hx]⟩⟩

/- ===================  claim theorems  =================== -/

/-- Claim C1: for every job accepted for processing, exactly one terminal
notification — a "ready" or a "failed" callback — is emitted, never both
and never zero, for every behaviour of the extraction, upload and network
environment (in particular even when every callback POST itself fails,
since `send_callback` swallows the failure). -/
theorem terminal_notification_exactly_one (cfg : Config) (req : Req)
    (env : Env) (h : accepted cfg req) :
    ((download cfg req env).callbacks.filter
      (fun c => isTerminal c.payload)).length = 1 := by
  rw [download_eq_process cfg req env h]
  obtain ⟨p, hcb, _, hp⟩ := process_trace cfg req env
  rw [hcb]
  rcases hp with ⟨msg, rfl, _⟩ | ⟨u, info, files, hx, rfl, _⟩ <;>
    simp [isTerminal, downloadingPayload, failPayload, readyPayload]

/-- Witness for C1: a concrete accepted job in a concrete environment. -/
theorem terminal_notification_exactly_one_witness :
    accepted cfgW reqW ∧
    ((download cfgW reqW envW).callbacks.filter
      (fun c => isTerminal c.payload)).length = 1 :=
  ⟨by decide, terminal_notification_exactly_one cfgW reqW envW (by decide)⟩

/-- Counterexample for C2: the handler has no strategy catalog and no retry
loop.  On a job whose (single) extraction attempt raises a transiently
classified rate-limit error, the code performs exactly one attempt and goes
straight to the terminal "failed" notification — it does not transition to
Retrying and does not re-attempt with any further strategy, contradicting
the claimed K+1-attempts-then-success behaviour. -/
theorem transient_failure_no_retry_cex :
    (download cfgW reqW envTransient).extractAttempts = 1 ∧
    (download cfgW reqW envTransient).callbacks.map
      (fun c => c.payload.status) = ["downloading", "failed"] ∧
    (download cfgW reqW envTransient).httpStatus = 500 := by decide

/-- Claim C2 (amended): the handler performs exactly one extraction attempt
per accepted job, with a single fixed configuration per media kind; any
extraction error — transient or not — drives the job directly to the
terminal failure notification and a 500 response, with no retry. -/
theorem extraction_single_attempt (cfg : Config) (req : Req) (env : Env)
    (h : accepted cfg req) :
    (download cfg req env).extractAttempts = 1 ∧
    (∀ msg, env.extract = .raise msg →
      (download cfg req env).callbacks.map (fun c => c.payload.status) =
        ["downloading", "failed"] ∧
      (download cfg req env).httpStatus = 500) := by
  rw [download_eq_process cfg req env h]
  obtain ⟨p, hcb, hn, hp⟩ := process_trace cfg req env
  refine ⟨hn, fun msg hm => ?_⟩
  rcases hp with ⟨m, rfl, h5⟩ | ⟨u, info, files, hx, rfl, _⟩
  · rw [hcb]
    exact ⟨by simp [downloadingPayload, failPayload], h5⟩
  · rw [hm] at hx
    cases hx

/-- Witness for C2 (amended): the concrete transient-failure run. -/
theorem extraction_single_attempt_witness :
    accepted cfgW reqW ∧
    envTransient.extract = .raise "HTTP Error 429: Too Many Requests" ∧
    (download cfgW reqW envTransient).callbacks.map
      (fun c => c.payload.status) = ["downloading", "failed"] :=
  ⟨by decide, rfl,
   ((extraction_single_attempt cfgW reqW envTransient (by decide)).2
      "HTTP Error 429: Too Many Requests" rfl).1⟩

/-- Counterexample for C3: the claimed third tier does not exist.  In a
work directory containing exactly one file whose name is neither the
expected name nor prefixed by the job identifier, the locator returns
nothing (the handler then raises file-not-found), instead of accepting the
single file unconditionally as the claim states. -/
theorem locate_singleton_unmatched_cex :
    (["song.webm"] : List String).length = 1 ∧
    locate ["song.webm"] "abc" "mp3" = none := by decide

/-- Claim C3 (amended): artifact location is a two-tier algorithm — an
exact match on the expected `assetId.extension` name is preferred; else the
first directory entry whose name starts with the job identifier is taken,
with its extension re-derived from the file name; otherwise (even when the
directory contains exactly one file) nothing is located and the handler
raises its not-found error. -/
theorem locate_two_tier (files : List String) (aid ext : String) :
    ((aid ++ "." ++ ext) ∈ files →
      locate files aid ext = some (aid ++ "." ++ ext, ext)) ∧
    ((aid ++ "." ++ ext) ∉ files →
      locate files aid ext =
        (files.find? (fun f => pyStartsWith f aid)).map
          (fun f => (f, lastExt f))) := by
  constructor
  · intro hmem
    simp [locate, hmem]
  · intro hmem
    have hc : files.contains (aid ++ "." ++ ext) = false := by
      simpa using hmem
    simp only [locate, hc, Bool.false_eq_true, if_false]
    cases hf : files.find? (fun f => pyStartsWith f aid) <;> simp [hf]

/-- Witness for C3 (amended): both tiers at concrete inputs. -/
theorem locate_two_tier_witness :
    ("aid" ++ "." ++ "mp3") ∈ ["aid.mp3"] ∧
    locate ["aid.mp3"] "aid" "mp3" = some ("aid" ++ "." ++ "mp3", "mp3") :=
  ⟨by decide, (locate_two_tier ["aid.mp3"] "aid" "mp3").1 (by decide)⟩

/-- Claim C4: every terminal failure callback carries only the final
error: its title, duration, asset-url and thumbnail fields are absent, and
its error message is truncated to at most 500 characters. -/
theorem failure_notification_shape (cfg : Config) (req : Req) (env : Env)
    (c : CallbackCall) (hc : c ∈ (download cfg req env).callbacks)
    (hs : c.payload.status = "failed") :
    c.payload.title = none ∧ c.payload.duration = none ∧
    c.payload.asset_url = none ∧ c.payload.thumbnail_url = none ∧
    ∃ m, c.payload.error_message = some m ∧ m.length ≤ 500 := by
  by_cases h : accepted cfg req
  · rw [download_eq_process cfg req env h] at hc
    obtain ⟨p, hcb, _, hp⟩ := process_trace cfg req env
    rw [hcb] at hc
    simp only [List.mem_cons, List.not_mem_nil, or_false] at hc
    rcases hc with rfl | rfl
    · simp [downloadingPayload] at hs
    · rcases hp with ⟨msg, rfl, _⟩ | ⟨u, info, files, hx, rfl, _⟩
      · exact ⟨rfl, rfl, rfl, rfl, pyTake msg 500, rfl, pyTake_length msg 500⟩
      · simp [readyPayload] at hs
  · obtain ⟨code, hcode⟩ := download_not_accepted cfg req env h
    rw [hcode] at hc
    simp [noEffect] at hc

/-- Witness for C4: the concrete failure callback of the transient run. -/
theorem failure_notification_shape_witness :
    cFailW ∈ (download cfgW reqW envTransient).callbacks ∧
    cFailW.payload.status = "failed" ∧
    (cFailW.payload.title = none ∧ cFailW.payload.duration = none ∧
     cFailW.payload.asset_url = none ∧ cFailW.payload.thumbnail_url = none ∧
     ∃ m, cFailW.payload.error_message = some m ∧ m.length ≤ 500) :=
  ⟨by decide, by decide,
   failure_notification_shape cfgW reqW envTransient cFailW (by decide)
     (by decide)⟩

/-- Claim C5: the per-job temporary directory is released on every exit
path — whenever a run creates it, the same run releases it, for every
request and every environment behaviour (success, file-not-found, upload
failure, extraction error). -/
theorem temp_dir_always_released (cfg : Config) (req : Req) (env : Env) :
    (download cfg req env).tempDirReleased =
      (download cfg req env).tempDirCreated := by
  by_cases h : accepted cfg req
  · rw [download_eq_process cfg req env h]
    rcases hx : env.extract with ⟨info, files⟩ | msg
    · rcases hl : locate files (req.asset_id.getD "")
          (mediaParams (pyGetD req.type_ "audio")).expected_ext with _ | ⟨f, e⟩
      · simp [process, hx, hl]
      · rcases hu : env.upload with _ | msg <;> simp [process, hx, hl, hu]
    · simp [process, hx]
  · obtain ⟨code, hcode⟩ := download_not_accepted cfg req env h
    rw [hcode]
    rfl

/-- Counterexample for C6: the storage key is not determined solely by
owner, job id and media kind.  Two audio jobs with identical owner "art",
id "aid" and media kind audio produce different keys when the extractor
names its output differently: the exactly named `aid.mp3` gives key
`art/aid.mp3`, while a run whose only output is `aid.m4a` gives key
`art/aid.m4a` (the handler re-derives the extension from the located
file, src/app.py line 137). -/
theorem storage_key_not_canonical_cex :
    (download cfgW reqW envW).uploads.map (fun u => u.key) =
      ["art/aid.mp3"] ∧
    (download cfgW reqW envRenamed).uploads.map (fun u => u.key) =
      ["art/aid.m4a"] := by decide

/-- Claim C6 (amended): for every successful upload the storage key is
`artistId/assetId.ext` where `ext` is the extension returned by the
artifact locator — the canonical extension of the media kind when the
exactly named file exists, and otherwise the extension of the first file
prefixed by the job id; the bucket and content type come from the media
kind. -/
theorem storage_key_formula (cfg : Config) (req : Req) (env : Env)
    (h : accepted cfg req) (info : Info) (files : List String) (f e : String)
    (hx : env.extract = .ok info files)
    (hl : locate files (req.asset_id.getD "")
      (mediaParams (pyGetD req.type_ "audio")).expected_ext = some (f, e)) :
    (download cfg req env).uploads =
      [⟨(mediaParams (pyGetD req.type_ "audio")).bucket,
        req.artist_id.getD "" ++ "/" ++ req.asset_id.getD "" ++ "." ++ e,
        (mediaParams (pyGetD req.type_ "audio")).ctypeTop ++ "/" ++ e⟩] := by
  rw [download_eq_process cfg req env h]
  rcases hu : env.upload with _ | msg <;> simp [process, hx, hl, hu]

/-- Witness for C6 (amended): the concrete renamed-output run. -/
theorem storage_key_formula_witness :
    accepted cfgW reqW ∧
    envRenamed.extract = .ok infoW ["aid.m4a"] ∧
    locate ["aid.m4a"] "aid"
      (mediaParams (pyGetD reqW.type_ "audio")).expected_ext =
      some ("aid.m4a", "m4a") ∧
    (download cfgW reqW envRenamed).uploads =
      [⟨"audio-files", "art/aid.m4a", "audio/m4a"⟩] :=
  ⟨by decide, rfl, by decide,
   storage_key_formula cfgW reqW envRenamed (by decide) infoW ["aid.m4a"]
     "aid.m4a" "m4a" rfl (by decide)⟩

/-- Claim C7: `send_callback` performs exactly one outbound POST carrying
its payload with a 30-unit timeout and returns a boolean; when the POST
raises, the exception is swallowed and the result is `false`; when the POST
returns a response, the result is true exactly for status 200.  (That the
function never raises is expressed by its total type: the bare `except` of
src/app.py line 25 maps every exceptional outcome of the call into the
`false` return value.) -/
theorem send_callback_contract (post : CallbackCall → PostResult)
    (u : String) (p : Payload) :
    (send_callback post u p).2 = [⟨u, p, 30⟩] ∧
    (∀ m, post ⟨u, p, 30⟩ = .exc m → (send_callback post u p).1 = false) ∧
    (∀ s, post ⟨u, p, 30⟩ = .resp s →
      ((send_callback post u p).1 = true ↔ s = 200)) := by
  refine ⟨send_callback_calls post u p, ?_, ?_⟩
  · intro m hm
    simp [send_callback, hm]
  · intro s hs
    simp [send_callback, hs]

/-- Witness for C7: a network that raises, and one that returns 200. -/
theorem send_callback_contract_witness :
    (send_callback (fun _ => .exc "connection reset") "u"
        (downloadingPayload "aid" (some "s"))).1 = false ∧
    ((send_callback (fun _ => .resp 200) "u"
        (downloadingPayload "aid" (some "s"))).1 = true ↔ (200 : Nat) = 200) :=
  ⟨(send_callback_contract (fun _ => .exc "connection reset") "u"
      (downloadingPayload "aid" (some "s"))).2.1 "connection reset" rfl,
   (send_callback_contract (fun _ => .resp 200) "u"
      (downloadingPayload "aid" (some "s"))).2.2 200 rfl⟩

/-- Counterexample for C8: when the metadata dictionary lacks the title key
entirely, the success notification carries the default string "Unknown"
(src/app.py line 121), not null as the claim states. -/
theorem ready_title_absent_not_null_cex :
    (download cfgW reqW envNoTitle).callbacks.map
      (fun c => (c.payload.status, c.payload.title)) =
      [("downloading", none), ("ready", some "Unknown")] := by decide

/-- Claim C8 (amended): in every success payload the title is truncated to
at most 255 characters and is null exactly when the extracted title value
is Python `None` or the empty string — an absent title key instead
defaults to the string "Unknown"; the duration is capped at 86400 and is
null exactly when the extracted duration value is absent, `None` or
zero. -/
theorem ready_payload_field_bounds (aid u : String) (info : Info)
    (sec : Option String) :
    (∀ t, (readyPayload aid u info sec).title = some t → t.length ≤ 255) ∧
    ((readyPayload aid u info sec).title = none ↔
      pyGetD info.title "Unknown" = none ∨
      pyGetD info.title "Unknown" = some "") ∧
    (info.title = none →
      (readyPayload aid u info sec).title = some "Unknown") ∧
    (∀ d, (readyPayload aid u info sec).duration = some d → d ≤ 86400) ∧
    ((readyPayload aid u info sec).duration = none ↔
      pyGetD info.duration 0 = none ∨ pyGetD info.duration 0 = some 0) := by
  refine ⟨?_, ?_, ?_, ?_, ?_⟩
  · intro t ht
    rcases hti : pyGetD info.title "Unknown" with _ | s
    · simp [readyPayload, hti] at ht
    · by_cases hs : s = "" <;> simp [readyPayload, hti, hs] at ht
      rw [← ht]
      exact pyTake_length s 255
  · rcases hti : pyGetD info.title "Unknown" with _ | s
    · simp [readyPayload, hti]
    · by_cases hs : s = "" <;> simp [readyPayload, hti, hs]
  · intro hti
    have : pyGetD info.title "Unknown" = some "Unknown" := by
      simp [pyGetD, hti]
    simp [readyPayload, this]
    decide
  · intro d hd
    rcases hdu : pyGetD info.duration 0 with _ | v
    · simp [readyPayload, hdu] at hd
    · by_cases hv : v = 0 <;> simp [readyPayload, hdu, hv] at hd
      omega
  · rcases hdu : pyGetD info.duration 0 with _ | v
    · simp [readyPayload, hdu]
    · by_cases hv : v = 0 <;> simp [readyPayload, hdu, hv]

/-- Witness for C8 (amended): the concrete success payload of `infoW`. -/
theorem ready_payload_field_bounds_witness :
    (readyPayload "aid" "u" infoW (some "s")).title = some "Song A" ∧
    ("Song A" : String).length ≤ 255 :=
  ⟨by decide,
   (ready_payload_field_bounds "aid" "u" infoW (some "s")).1 "Song A"
     (by decide)⟩

/-- Claim C9: the requested media type defaults to "audio" when the field
is absent; the audio pipeline (mp3, audio-files bucket, audio content
type) is selected exactly when the value is the string "audio", and every
other value — including `None` and unrecognized strings — selects the
video pipeline (mp4, media-assets bucket, video content type). -/
theorem media_type_selection (t : Option (Option String)) :
    (t = none → pyGetD t "audio" = some "audio") ∧
    (pyGetD t "audio" = some "audio" →
      mediaParams (pyGetD t "audio") = ⟨"mp3", "audio-files", "audio"⟩) ∧
    (pyGetD t "audio" ≠ some "audio" →
      mediaParams (pyGetD t "audio") = ⟨"mp4", "media-assets", "video"⟩) := by
  refine ⟨?_, ?_, ?_⟩
  · rintro rfl
    rfl
  · intro h
    simp [mediaParams, h]
  · intro h
    simp [mediaParams, h]

/-- Witness for C9: an unrecognized media type goes to the video pipeline. -/
theorem media_type_selection_witness :
    pyGetD (some (some "weird")) "audio" ≠ some "audio" ∧
    mediaParams (pyGetD (some (some "weird")) "audio") =
      ⟨"mp4", "media-assets", "video"⟩ :=
  ⟨by decide, (media_type_selection (some (some "weird"))).2.2 (by decide)⟩

/-- Claim C10: a /download request whose secret does not match, or with a
missing (falsy) url, asset_id, artist_id or callback_url, is rejected with
401 or 400 before any callback, extraction attempt or upload happens. -/
theorem invalid_request_rejected (cfg : Config) (req : Req) (env : Env)
    (h : req.secret ≠ cfg.api_secret ∨ truthy req.url = false ∨
      truthy req.asset_id = false ∨ truthy req.artist_id = false ∨
      truthy req.callback_url = false) :
    ((download cfg req env).httpStatus = 401 ∨
      (download cfg req env).httpStatus = 400) ∧
    (download cfg req env).callbacks = [] ∧
    (download cfg req env).extractAttempts = 0 ∧
    (download cfg req env).uploads = [] := by
  by_cases h1 : req.secret = cfg.api_secret
  · rcases h with h | h | h | h | h
    · exact absurd h1 h
    · simp [download, h1, h, noEffect]
    · simp [download, h1, h, noEffect]
    · simp [download, h1, h, noEffect]
    · by_cases hu : (truthy req.url && truthy req.asset_id &&
          truthy req.artist_id) = true
      · simp [download, h1, h, hu, noEffect]
      · simp [download, h1, hu, noEffect]
  · simp [download, h1, noEffect]

/-- Witness for C10: a request with the url field missing. -/
theorem invalid_request_rejected_witness :
    truthy reqMissingUrl.url = false ∧
    ((download cfgW reqMissingUrl envW).httpStatus = 401 ∨
      (download cfgW reqMissingUrl envW).httpStatus = 400) ∧
    (download cfgW reqMissingUrl envW).callbacks = [] :=
  ⟨rfl,
   (invalid_request_rejected cfgW reqMissingUrl envW
      (Or.inr (Or.inl rfl))).1,
   (invalid_request_rejected cfgW reqMissingUrl envW
      (Or.inr (Or.inl rfl))).2.1⟩

end YtdlpService
